import Mathlib

/-!
Verification of the Book Recommendation System's core engine.

The development shallowly embeds the recommendation engine of the repository:
the popularity ranker (`src/popularity_recommender.py`), the two similarity
engines (`src/collaborative_recommender.py`, `src/content_recommender.py`),
the hybrid fusion (`src/hybrid_recommender.py`) and the facade
(`src/recommendation_system.py`).

Modelling conventions:
- pandas dataframes are lists of row structures, in dataframe row order;
- float scores/ratings are modelled as exact rationals (`Rat`);
- a labelled similarity dataframe is modelled by its index (list of ISBN
  labels, in index order) plus an entry function `sim : row → column → value`;
- `pandas.sort_values` is modelled by a deterministic stable descending sort
  (`List.insertionSort`); no claim below depends on the order of tied keys;
- a fallible dataframe operation returns `Option`: `none` models a raised
  pandas exception, `some rows` a returned dataframe;
- text columns that may hold NaN are `Option String`; `fillna('')` is
  `Option.getD ""`. Columns never read by the engine (year, image URLs)
  are omitted.
-/

/-- One row of the `books_with_rating` catalog table
(built by `data_loader.py`, `create_books_with_rating`). The `content` field
models the derived `Content` column of `content_recommender.py` line 34:
`none` means the column is absent for this row. -/
structure BookRow where
  isbn : String
  title : Option String
  author : Option String
  publisher : Option String
  avgRating : Rat
  content : Option String
deriving Repr, DecidableEq

/-- One row of a ratings table (`filtered_ratings` or `book_rating_merged`):
a (user, ISBN, rating) triple. Merged-in book columns are not read by the
engine and are omitted. -/
structure RatingRow where
  userId : Int
  isbn : String
  rating : Int
deriving Repr, DecidableEq

/-- One row of the dataframe returned by the similarity/hybrid recommenders:
columns ISBN, Book-Title, Book-Author, Average-Rating,
Similarity-Score (resp. Hybrid-Score), Publisher. -/
structure RecRow where
  isbn : String
  title : Option String
  author : Option String
  avgRating : Rat
  score : Rat
  publisher : Option String
deriving Repr, DecidableEq

/-- One row of the dataframe returned by the popularity recommender:
columns ISBN, Book-Title, Book-Author, Average-Rating, Rating-Count,
Publisher. -/
structure PopRow where
  isbn : String
  title : Option String
  author : Option String
  avgRating : Rat
  ratingCount : Nat
  publisher : Option String
deriving Repr, DecidableEq

/-- Shared state shape of `CollaborativeRecommender` and `ContentRecommender`:
the `books_with_rating` catalog plus the labelled item-item similarity
dataframe (`item_similarity_df` resp. `content_similarity_df`), modelled as
its label index together with its entry function. -/
structure SimilarityRecommender where
  booksWithRating : List BookRow
  simIndex : List String
  sim : String → String → Rat

/-- Models `CollaborativeRecommender.recommend`
(`src/collaborative_recommender.py` lines 58-97) and
`ContentRecommender.recommend` (`src/content_recommender.py` lines 57-96);
the two method bodies are textually identical up to the name of the
similarity dataframe, so they share this definition.
Step by step: the labelled column `sim_df[isbn]` is the series
`[(j, sim j isbn) | j in simIndex]`; it is sorted descending by value, the
self entry is removed, the head-`n` labels are the candidates; the catalog is
filtered (in catalog row order) to rows whose ISBN is a candidate; the values
of `similar_books[top_similar_isbns]` (similarity-descending order) are
assigned positionally as the `Similarity-Score` column — `none` models the
pandas exception raised when the two lengths differ — and the frame is sorted
by that column descending. `some []` models the empty dataframe returned when
the ISBN is absent from the similarity index. -/
def SimilarityRecommender.recommend (e : SimilarityRecommender) (isbn : String) (n : Nat) :
    Option (List RecRow) :=
  if isbn ∉ e.simIndex then some [] else
  let similarAll := (e.simIndex.map (fun j => (j, e.sim j isbn))).insertionSort
      (fun a b => b.2 ≤ a.2)
  let similarBooks := similarAll.filter (fun p => p.1 != isbn)
  let topSimilar := similarBooks.take n
  let topSimilarIsbns := topSimilar.map Prod.fst
  let recommendations := e.booksWithRating.filter (fun b => decide (b.isbn ∈ topSimilarIsbns))
  let similarityScores := topSimilar.map Prod.snd
  if recommendations.length = similarityScores.length then
    some (((recommendations.zip similarityScores).map (fun p =>
      RecRow.mk p.1.isbn p.1.title p.1.author p.1.avgRating p.2 p.1.publisher)).insertionSort
      (fun a b => b.score ≤ a.score))
  else none

/-- `CollaborativeRecommender.recommend` is the shared similarity-engine query
applied to the collaborative similarity dataframe. -/
def CollaborativeRecommender.recommend :
    SimilarityRecommender → String → Nat → Option (List RecRow) :=
  SimilarityRecommender.recommend

/-- `ContentRecommender.recommend` is the shared similarity-engine query
applied to the content similarity dataframe. -/
def ContentRecommender.recommend :
    SimilarityRecommender → String → Nat → Option (List RecRow) :=
  SimilarityRecommender.recommend

/-- The synthesized per-book text of `content_recommender.py` lines 34-38:
`Book-Author.fillna('') + ' ' + Publisher.fillna('') + ' ' + Book-Title.fillna('')`. -/
def contentDoc (b : BookRow) : String :=
  b.author.getD "" ++ " " ++ b.publisher.getD "" ++ " " ++ b.title.getD ""

/-- The catalog-table mutation performed by `ContentRecommender._build_model`
(`content_recommender.py` lines 34-38): the derived `Content` column is added
in place to the shared `books_with_rating` dataframe. The rest of
`_build_model` (TF-IDF fit, cosine similarity) reads but does not write the
catalog, so this function is the whole effect of construction on it. -/
def ContentRecommender.buildModelCatalog (books : List BookRow) : List BookRow :=
  books.map (fun b => { b with content := some (contentDoc b) })

/-- Score lookup in an engine's returned candidate dataframe, as the hybrid
recommender performs it (`hybrid_recommender.py` lines 56-64):
`recs[recs['ISBN'] == i]['Similarity-Score'].values[0]` on the first matching
row, `0` when no row matches. -/
def lookupListed (recs : List RecRow) (i : String) : Rat :=
  match recs.find? (fun r => r.isbn == i) with
  | some r => r.score
  | none => 0

/-- The candidate union `set(collab ISBNs) | set(content ISBNs)` of
`hybrid_recommender.py` line 49. A Python set iterates in an unspecified,
deterministic-per-run order; it is modelled by first-occurrence
deduplication of the concatenated ISBN lists. No claim below depends on
this order. -/
def hybridCandidates (collabRecs contentRecs : List RecRow) : List String :=
  (collabRecs.map RecRow.isbn ++ contentRecs.map RecRow.isbn).dedup

/-- The `hybrid_scores` dict of `hybrid_recommender.py` lines 51-68, as an
association list in candidate-iteration order: each candidate is mapped to
`collab_weight * collab_score + content_weight * content_score`, each score
looked up in the respective candidate dataframe and `0` if absent. -/
def hybridScoresList (collabRecs contentRecs : List RecRow) (collabWeight contentWeight : Rat) :
    List (String × Rat) :=
  (hybridCandidates collabRecs contentRecs).map (fun i =>
    (i, collabWeight *
          (if collabRecs.any (fun r => r.isbn == i) then lookupListed collabRecs i else 0)
        + contentWeight *
          (if contentRecs.any (fun r => r.isbn == i) then lookupListed contentRecs i else 0)))

/-- Dict lookup `hybrid_scores[isbn]` (`hybrid_recommender.py` line 79);
the default `0` is never reached on the keys the code uses. -/
def scoreOf (scores : List (String × Rat)) (i : String) : Rat :=
  (((scores.find? (fun p => p.1 == i))).map Prod.snd).getD 0

/-- State of `HybridRecommender` (`hybrid_recommender.py` lines 14-23): the
two engines; the catalog used for final metadata is
`collabRecommender.booksWithRating` (line 75). -/
structure HybridRecommender where
  collabRecommender : SimilarityRecommender
  contentRecommender : SimilarityRecommender

/-- Models `HybridRecommender.recommend` (`hybrid_recommender.py` lines
25-85): query both engines for `2n` candidates; if either dataframe is empty
return the head-`n` of the other; otherwise score the candidate union,
sort descending (Python's `sorted` is stable; the model's sort is stable over
the modelled candidate order), keep the top-`n` ISBNs, filter the catalog to
them (catalog row order), attach each row's own dict score, and sort by it
descending. An engine exception (`none`) propagates. -/
def HybridRecommender.recommend (h : HybridRecommender) (isbn : String) (n : Nat)
    (collabWeight contentWeight : Rat) : Option (List RecRow) := do
  let collabRecs ← CollaborativeRecommender.recommend h.collabRecommender isbn (n * 2)
  let contentRecs ← ContentRecommender.recommend h.contentRecommender isbn (n * 2)
  if collabRecs.isEmpty then return contentRecs.take n
  if contentRecs.isEmpty then return collabRecs.take n
  let hybridScores := hybridScoresList collabRecs contentRecs collabWeight contentWeight
  let sortedIsbns := hybridScores.insertionSort (fun a b => b.2 ≤ a.2)
  let topIsbns := (sortedIsbns.take n).map Prod.fst
  let recommendations := h.collabRecommender.booksWithRating.filter
      (fun b => decide (b.isbn ∈ topIsbns))
  return (recommendations.map (fun b =>
      RecRow.mk b.isbn b.title b.author b.avgRating (scoreOf hybridScores b.isbn)
        b.publisher)).insertionSort (fun a b => b.score ≤ a.score)

/-- State of `PopularityRecommender` (`popularity_recommender.py` lines
12-21): the catalog and the full merged (book, rating) log. -/
structure PopularityRecommender where
  booksWithRating : List BookRow
  bookRatingMerged : List RatingRow

/-- The per-ISBN rating count of `popularity_recommender.py` line 35:
`book_rating_merged.groupby('ISBN')['Book-Rating'].count()` for one ISBN. -/
def ratingCountFor (merged : List RatingRow) (i : String) : Nat :=
  (merged.filter (fun r => r.isbn == i)).length

/-- Sort order of `popularity_recommender.py` lines 45-48:
`sort_values(by=['Average-Rating', 'Rating-Count'], ascending=[False, False])`.
`popBefore a b` holds when row `a` may precede row `b`, i.e. the key pair of
`a` is lexicographically at least that of `b`. -/
def popBefore (a b : BookRow × Nat) : Prop :=
  b.1.avgRating < a.1.avgRating ∨ (b.1.avgRating = a.1.avgRating ∧ b.2 ≤ a.2)

instance popBefore.instDecidableRel : DecidableRel popBefore := fun a b => by
  unfold popBefore; infer_instance

instance popBefore.instIsTotal : IsTotal (BookRow × Nat) popBefore := by
  constructor
  intro a b
  rcases lt_trichotomy a.1.avgRating b.1.avgRating with h | h | h
  · exact Or.inr (Or.inl h)
  · rcases le_total a.2 b.2 with h2 | h2
    · exact Or.inr (Or.inr ⟨h, h2⟩)
    · exact Or.inl (Or.inr ⟨h.symm, h2⟩)
  · exact Or.inl (Or.inl h)

instance popBefore.instIsTrans : IsTrans (BookRow × Nat) popBefore := by
  constructor
  rintro a b c (hab | ⟨hab, hab2⟩) (hbc | ⟨hbc, hbc2⟩)
  · exact Or.inl (lt_trans hbc hab)
  · exact Or.inl (hbc ▸ hab)
  · exact Or.inl (hab ▸ hbc)
  · exact Or.inr ⟨hbc.trans hab, hbc2.trans hab2⟩

/-- Models `PopularityRecommender.recommend` (`popularity_recommender.py`
lines 23-53): count ratings per ISBN over the full merged log, inner-merge
the counts onto the catalog (a left catalog row survives exactly when its
ISBN occurs in the log, i.e. its count is nonzero; pandas keeps the left
frame's row order), keep rows with `Rating-Count >= min_ratings`, sort by
(Average-Rating, Rating-Count) both descending, select the output columns and
truncate to `n`. -/
def PopularityRecommender.recommend (p : PopularityRecommender) (n : Nat) (minRatings : Nat) :
    List PopRow :=
  let withCounts := p.booksWithRating.filterMap (fun b =>
    let c := ratingCountFor p.bookRatingMerged b.isbn
    if c = 0 then none else some (b, c))
  let popularBooks := withCounts.filter (fun bc => decide (minRatings ≤ bc.2))
  let sorted := popularBooks.insertionSort popBefore
  (sorted.map (fun bc =>
    PopRow.mk bc.1.isbn bc.1.title bc.1.author bc.1.avgRating bc.2 bc.1.publisher)).take n

/-- Result dataframe of a facade call: a popularity-shaped frame (with a
Rating-Count column) or a similarity/hybrid-shaped frame (with a score
column). -/
inductive Frame where
  | pop (rows : List PopRow)
  | recs (rows : List RecRow)
deriving Repr, DecidableEq

/-- State of `BookRecommendationSystem` after `initialize`
(`recommendation_system.py` lines 40-78): the shared catalog, the filtered
interaction log, and the four recommenders. -/
structure BookRecommendationSystem where
  booksWithRating : List BookRow
  filteredRatings : List RatingRow
  popularityRecommender : PopularityRecommender
  collaborativeRecommender : SimilarityRecommender
  contentRecommender : SimilarityRecommender
  hybridRecommender : HybridRecommender

/-- Models `BookRecommendationSystem.get_popular_books`
(`recommendation_system.py` lines 84-86); the spec calls it `get_popular`. -/
def BookRecommendationSystem.getPopularBooks (s : BookRecommendationSystem) (n : Nat)
    (minRatings : Nat) : List PopRow :=
  s.popularityRecommender.recommend n minRatings

/-- Models `BookRecommendationSystem.recommend_by_isbn`
(`recommendation_system.py` lines 88-106). The `popularity` branch calls the
popularity recommender with its default `min_ratings=50` and ignores the
ISBN; an unknown method raises `ValueError(f"Unknown method: ...")`, modelled
as `Except.error`; an engine exception also surfaces as `Except.error`. -/
def BookRecommendationSystem.recommendByIsbn (s : BookRecommendationSystem) (isbn : String)
    (n : Nat) (method : String) : Except String Frame :=
  if method = "popularity" then
    Except.ok (Frame.pop (s.popularityRecommender.recommend n 50))
  else if method = "collaborative" then
    match CollaborativeRecommender.recommend s.collaborativeRecommender isbn n with
    | some rows => Except.ok (Frame.recs rows)
    | none => Except.error "ValueError: length of values does not match length of index"
  else if method = "content" then
    match ContentRecommender.recommend s.contentRecommender isbn n with
    | some rows => Except.ok (Frame.recs rows)
    | none => Except.error "ValueError: length of values does not match length of index"
  else if method = "hybrid" then
    match s.hybridRecommender.recommend isbn n (mkRat 1 2) (mkRat 1 2) with
    | some rows => Except.ok (Frame.recs rows)
    | none => Except.error "ValueError: length of values does not match length of index"
  else
    Except.error ("Unknown method: " ++ method)

/-- The per-seed dispatch inside the loop of
`recommendation_system.py` lines 169-175: `collaborative` and `content` go to
the respective engine; any other method (the code comment says `# hybrid`)
goes to the hybrid recommender with its default weights `0.5, 0.5`. -/
def BookRecommendationSystem.recsFor (s : BookRecommendationSystem) (method : String)
    (isbn : String) (n : Nat) : Option (List RecRow) :=
  if method = "collaborative" then
    CollaborativeRecommender.recommend s.collaborativeRecommender isbn n
  else if method = "content" then
    ContentRecommender.recommend s.contentRecommender isbn n
  else
    s.hybridRecommender.recommend isbn n (mkRat 1 2) (mkRat 1 2)

/-- Drop duplicate rows by ISBN keeping the first occurrence, as
`combined.drop_duplicates(subset='ISBN')` does
(`recommendation_system.py` line 185). -/
def dedupByIsbn : List RecRow → List RecRow
  | [] => []
  | r :: rest => r :: dedupByIsbn (rest.filter (fun x => x.isbn != r.isbn))
termination_by l => l.length
decreasing_by
  simp only [List.length_cons]
  exact Nat.lt_succ_of_le (List.length_filter_le _ _)

/-- Models `BookRecommendationSystem.recommend_for_user`
(`recommendation_system.py` lines 137-188): a user with no rows in the
filtered log gets the popularity recommendation with the default
`min_ratings=50`; otherwise the user's rows are sorted by rating descending,
the top-3 ISBNs seed one per-seed recommendation each, the non-empty results
are concatenated, rows for books the user already rated are dropped,
duplicates by ISBN are dropped, and the head-`n` is returned; when every
per-seed result was empty an empty frame is returned. -/
def BookRecommendationSystem.recommendForUser (s : BookRecommendationSystem) (userId : Int)
    (n : Nat) (method : String) : Option Frame :=
  let userRatedBooks := (s.filteredRatings.filter (fun r => r.userId == userId)).map RatingRow.isbn
  if userRatedBooks.isEmpty then
    some (Frame.pop (s.popularityRecommender.recommend n 50))
  else
    let userRatings := s.filteredRatings.filter (fun r => r.userId == userId)
    let sortedRatings := userRatings.insertionSort (fun a b => b.rating ≤ a.rating)
    let topUserBooks := (sortedRatings.take 3).map RatingRow.isbn
    if method = "popularity" then
      some (Frame.pop (s.popularityRecommender.recommend n 50))
    else do
      let allRecommendations ← topUserBooks.foldlM (fun acc i => do
        let recs ← s.recsFor method i n
        pure (if recs.isEmpty then acc else acc ++ [recs])) ([] : List (List RecRow))
      if allRecommendations.isEmpty then return Frame.recs []
      let combined := allRecommendations.flatten
      let notRated := combined.filter (fun r => !(userRatedBooks.contains r.isbn))
      return Frame.recs ((dedupByIsbn notRated).take n)

/-- State-passing wrapper for a popularity query: the code's
`recommend` reads but never writes the system state. -/
def popularityQueryStep (s : BookRecommendationSystem) (n minRatings : Nat) :
    BookRecommendationSystem × List PopRow :=
  (s, s.popularityRecommender.recommend n minRatings)

/-- State-passing wrapper for a collaborative query. -/
def collaborativeQueryStep (s : BookRecommendationSystem) (isbn : String) (n : Nat) :
    BookRecommendationSystem × Option (List RecRow) :=
  (s, CollaborativeRecommender.recommend s.collaborativeRecommender isbn n)

/-- State-passing wrapper for a content query. -/
def contentQueryStep (s : BookRecommendationSystem) (isbn : String) (n : Nat) :
    BookRecommendationSystem × Option (List RecRow) :=
  (s, ContentRecommender.recommend s.contentRecommender isbn n)

/-- State-passing wrapper for a hybrid query. -/
def hybridQueryStep (s : BookRecommendationSystem) (isbn : String) (n : Nat)
    (collabWeight contentWeight : Rat) :
    BookRecommendationSystem × Option (List RecRow) :=
  (s, s.hybridRecommender.recommend isbn n collabWeight contentWeight)

/-! Concrete instances used to evaluate the definitions at specific inputs. -/

/-- Catalog row for ISBN X1. -/
def bkX1 : BookRow := ⟨"X1", some "T1", some "A1", some "P1", 5, none⟩

/-- Catalog row for ISBN X2. -/
def bkX2 : BookRow := ⟨"X2", some "T2", some "A2", some "P2", 4, none⟩

/-- Catalog row for ISBN X3. -/
def bkX3 : BookRow := ⟨"X3", some "T3", some "A3", some "P3", 3, none⟩

/-- Catalog row for ISBN X4. -/
def bkX4 : BookRow := ⟨"X4", some "T4", some "A4", some "P4", 2, none⟩

/-- A symmetric similarity table on X1, X2, X3 with unit diagonal:
sim(X1,X2) = 9/10, sim(X1,X3) = 8/10, other off-diagonal entries 0. -/
def simEx (i j : String) : Rat :=
  if i = j then 1
  else if (i = "X1" ∧ j = "X2") ∨ (i = "X2" ∧ j = "X1") then mkRat 9 10
  else if (i = "X1" ∧ j = "X3") ∨ (i = "X3" ∧ j = "X1") then mkRat 8 10
  else 0

/-- An engine whose catalog row order (X1, X3, X2) differs from the
similarity-descending order of X1's neighbours (X2 before X3). -/
def engineEx : SimilarityRecommender := ⟨[bkX1, bkX3, bkX2], ["X1", "X3", "X2"], simEx⟩

/-- A collaborative engine whose similarity index does not contain X1
(the ISBN was rating-filtered out). -/
def collabEmptyEx : SimilarityRecommender := ⟨[bkX1, bkX3, bkX2], ["Z9"], fun _ _ => 0⟩

/-- A symmetric similarity table on X1, X4: sim(X1,X4) = 6/10. -/
def simCollabEx (i j : String) : Rat :=
  if i = j then 1
  else if (i = "X1" ∧ j = "X4") ∨ (i = "X4" ∧ j = "X1") then mkRat 6 10
  else 0

/-- A collaborative engine with candidates for X1 (namely X4). -/
def collabEngineEx : SimilarityRecommender :=
  ⟨[bkX1, bkX3, bkX2, bkX4], ["X1", "X4"], simCollabEx⟩

/-- Hybrid instance whose collaborative engine has no entry for X1. -/
def hybridEmptyCollabEx : HybridRecommender := ⟨collabEmptyEx, engineEx⟩

/-- Hybrid instance where both engines produce candidates for X1. -/
def hybridBothEx : HybridRecommender := ⟨collabEngineEx, engineEx⟩

/-- A small merged (book, rating) log: X1 rated twice, X3 rated once. -/
def mergedEx : List RatingRow := [⟨7, "X1", 8⟩, ⟨8, "X1", 7⟩, ⟨7, "X3", 9⟩]

/-- A popularity recommender over the X1/X3 catalog and `mergedEx`. -/
def popEx : PopularityRecommender := ⟨[bkX1, bkX3], mergedEx⟩

/-- A full system over the example tables; the filtered log holds one row of
user 7. -/
def sysEx : BookRecommendationSystem :=
  ⟨[bkX1, bkX3, bkX2, bkX4], [⟨7, "X1", 8⟩], popEx, collabEngineEx, engineEx, hybridBothEx⟩

/-- Lexicographic comparison of popularity output rows by the key pair
(Average-Rating, Rating-Count): `popRowGE a b` holds when the key pair of
`a` is lexicographically at least that of `b`. -/
def popRowGE (a b : PopRow) : Prop :=
  b.avgRating < a.avgRating ∨ (b.avgRating = a.avgRating ∧ b.ratingCount ≤ a.ratingCount)

/-! Helper lemmas. -/

/-- Membership is invariant under the model's stable sort. -/
theorem mem_insertionSort_iff {α : Type} (r : α → α → Prop) [DecidableRel r] (l : List α)
    (a : α) : a ∈ l.insertionSort r ↔ a ∈ l :=
  (List.perm_insertionSort r l).mem_iff

/-- Every row of a similarity engine's returned dataframe carries the ISBN of
a catalog book drawn from the top candidates, and that ISBN differs from the
seed. -/
theorem simRecommend_row_isbn (e : SimilarityRecommender) (seed : String) (n : Nat)
    (rows : List RecRow) (h : SimilarityRecommender.recommend e seed n = some rows) :
    ∀ r ∈ rows, r.isbn ≠ seed := by
  intro r hr
  simp only [SimilarityRecommender.recommend] at h
  split at h
  · injection h with h2
    subst h2
    cases hr
  · split at h
    · injection h with h2
      subst h2
      rw [mem_insertionSort_iff] at hr
      obtain ⟨p, hp, rfl⟩ := List.mem_map.mp hr
      have hm := (List.of_mem_zip hp).1
      have hpred := (List.mem_filter.mp hm).2
      have hmem := of_decide_eq_true hpred
      obtain ⟨q, hq, hq2⟩ := List.mem_map.mp hmem
      have hq3 := List.mem_of_mem_take hq
      have hq4 := (List.mem_filter.mp hq3).2
      simp only [bne_iff_ne, ne_eq] at hq4
      simpa [hq2] using hq4
    · cases h

/-- Every row of a hybrid dataframe carries an ISBN drawn from one of the two
engine candidate lists (degenerate paths included), hence never the seed. -/
theorem hybridRecommend_row_isbn (h : HybridRecommender) (seed : String) (n : Nat)
    (wc wt : Rat) (rows : List RecRow) (hh : h.recommend seed n wc wt = some rows) :
    ∀ r ∈ rows, r.isbn ≠ seed := by
  intro r hr
  simp only [HybridRecommender.recommend] at hh
  cases hc : CollaborativeRecommender.recommend h.collabRecommender seed (n * 2) with
  | none => rw [hc] at hh; cases hh
  | some collabRecs =>
  cases ht : ContentRecommender.recommend h.contentRecommender seed (n * 2) with
  | none => rw [hc, ht] at hh; cases hh
  | some contentRecs =>
  rw [hc, ht] at hh
  simp only [Option.bind_eq_bind, Option.some_bind] at hh
  by_cases hce : collabRecs.isEmpty
  · rw [if_pos hce] at hh
    injection hh with hh2
    subst hh2
    exact simRecommend_row_isbn h.contentRecommender seed (n * 2) contentRecs ht r
      (List.mem_of_mem_take hr)
  · rw [if_neg hce] at hh
    by_cases hte : contentRecs.isEmpty
    · rw [if_pos hte] at hh
      injection hh with hh2
      subst hh2
      exact simRecommend_row_isbn h.collabRecommender seed (n * 2) collabRecs hc r
        (List.mem_of_mem_take hr)
    · rw [if_neg hte] at hh
      injection hh with hh2
      subst hh2
      rw [mem_insertionSort_iff] at hr
      obtain ⟨b, hb, rfl⟩ := List.mem_map.mp hr
      have hpred := of_decide_eq_true (List.mem_filter.mp hb).2
      obtain ⟨q, hq, hq2⟩ := List.mem_map.mp hpred
      have hq3 : q ∈ hybridScoresList collabRecs contentRecs wc wt := by
        have := List.mem_of_mem_take hq
        rwa [mem_insertionSort_iff] at this
      obtain ⟨i, hi, rfl⟩ := List.mem_map.mp hq3
      have hi2 := List.mem_dedup.mp hi
      rcases List.mem_append.mp hi2 with hi3 | hi3
      · obtain ⟨r', hr', hr'2⟩ := List.mem_map.mp hi3
        have := simRecommend_row_isbn h.collabRecommender seed (n * 2) collabRecs hc r' hr'
        simp only [RecRow.isbn] at hq2 ⊢
        rw [← hq2]
        simpa [hr'2] using this
      · obtain ⟨r', hr', hr'2⟩ := List.mem_map.mp hi3
        have := simRecommend_row_isbn h.contentRecommender seed (n * 2) contentRecs ht r' hr'
        simp only [RecRow.isbn] at hq2 ⊢
        rw [← hq2]
        simpa [hr'2] using this

/-! Claim theorems. -/

/-- C1. The claim states that for a seed in the index, every returned row's
Similarity-Score equals the similarity-matrix entry sim(seed, row's ISBN).
The code violates it: `recommend` builds the candidate frame in catalog row
order but assigns the scores array in similarity-descending order, pairing
each row with the wrong book's score whenever the two orders differ. At the
concrete engine `engineEx` (catalog order X1, X3, X2; sim(X2,X1) = 9/10,
sim(X3,X1) = 8/10) the first returned row is X3 carrying score 9/10 although
sim(X3, X1) = 8/10. Both engines share the code, so both are evaluated. -/
theorem collab_recommend_misattributes_scores :
    CollaborativeRecommender.recommend engineEx "X1" 2 =
      some [⟨"X3", some "T3", some "A3", 3, mkRat 9 10, some "P3"⟩,
            ⟨"X2", some "T2", some "A2", 4, mkRat 8 10, some "P2"⟩] ∧
    ContentRecommender.recommend engineEx "X1" 2 =
      some [⟨"X3", some "T3", some "A3", 3, mkRat 9 10, some "P3"⟩,
            ⟨"X2", some "T2", some "A2", 4, mkRat 8 10, some "P2"⟩] ∧
    engineEx.sim "X3" "X1" = mkRat 8 10 ∧
    ¬ (mkRat 9 10 = mkRat 8 10) := by
  refine ⟨by decide, by decide, by decide, by decide⟩

/-- C2. The claim states that when the collaborative engine returns empty and
the content engine does not, the hybrid output equals the content engine's
own top-n verbatim. The code violates it: the hybrid returns the head-n of
the content engine's 2n-candidate dataframe, whose rows are ordered by
catalog row order (a consequence of the score-misassignment in the engine),
not by similarity. At the concrete instance, the hybrid returns X3 while the
content engine's own top-1 is X2. -/
theorem hybrid_collab_empty_not_content_top_n :
    CollaborativeRecommender.recommend hybridEmptyCollabEx.collabRecommender "X1" 2 = some [] ∧
    ContentRecommender.recommend hybridEmptyCollabEx.contentRecommender "X1" 2 =
      some [⟨"X3", some "T3", some "A3", 3, mkRat 9 10, some "P3"⟩,
            ⟨"X2", some "T2", some "A2", 4, mkRat 8 10, some "P2"⟩] ∧
    HybridRecommender.recommend hybridEmptyCollabEx "X1" 1 (mkRat 1 2) (mkRat 1 2) =
      some [⟨"X3", some "T3", some "A3", 3, mkRat 9 10, some "P3"⟩] ∧
    ContentRecommender.recommend hybridEmptyCollabEx.contentRecommender "X1" 1 =
      some [⟨"X2", some "T2", some "A2", 4, mkRat 9 10, some "P2"⟩] ∧
    ¬ (("X3" : String) = "X2") := by
  refine ⟨by decide, by decide, by decide, by decide, by decide⟩

/-- C4: no recommendation dataframe — collaborative, content, or hybrid —
ever contains a row whose ISBN equals the seed ISBN. -/
theorem recommend_excludes_seed (e : SimilarityRecommender) (h : HybridRecommender)
    (seed : String) (n : Nat) (wc wt : Rat) :
    (∀ rows, CollaborativeRecommender.recommend e seed n = some rows →
      ∀ r ∈ rows, r.isbn ≠ seed) ∧
    (∀ rows, ContentRecommender.recommend e seed n = some rows →
      ∀ r ∈ rows, r.isbn ≠ seed) ∧
    (∀ rows, h.recommend seed n wc wt = some rows → ∀ r ∈ rows, r.isbn ≠ seed) :=
  ⟨fun rows hrows => simRecommend_row_isbn e seed n rows hrows,
   fun rows hrows => simRecommend_row_isbn e seed n rows hrows,
   fun rows hrows => hybridRecommend_row_isbn h seed n wc wt rows hrows⟩

/-- Witness for C4 at a concrete engine, hybrid instance and returned row. -/
theorem recommend_excludes_seed_witness :
    (RecRow.mk "X3" (some "T3") (some "A3") 3 (mkRat 9 10) (some "P3")).isbn ≠ "X1" :=
  (recommend_excludes_seed engineEx hybridEmptyCollabEx "X1" 2 (mkRat 1 2) (mkRat 1 2)).1
    [⟨"X3", some "T3", some "A3", 3, mkRat 9 10, some "P3"⟩,
     ⟨"X2", some "T2", some "A2", 4, mkRat 8 10, some "P2"⟩]
    (by decide) _ (by decide)

/-- C5: an ISBN absent from an engine's similarity index yields an empty
dataframe and no exception, for both engines and every n. -/
theorem recommend_missing_isbn_empty (e : SimilarityRecommender) (isbn : String) (n : Nat)
    (h : isbn ∉ e.simIndex) :
    CollaborativeRecommender.recommend e isbn n = some [] ∧
    ContentRecommender.recommend e isbn n = some [] := by
  constructor <;>
  · show SimilarityRecommender.recommend e isbn n = some []
    unfold SimilarityRecommender.recommend
    rw [if_pos h]

/-- Witness for C5: ZZ is not in the example engine's index. -/
theorem recommend_missing_isbn_empty_witness :
    CollaborativeRecommender.recommend engineEx "ZZ" 5 = some [] ∧
    ContentRecommender.recommend engineEx "ZZ" 5 = some [] :=
  recommend_missing_isbn_empty engineEx "ZZ" 5 (by decide)

/-- C6: a method string outside the four known ones makes
`recommend_by_isbn` raise `ValueError("Unknown method: ...")`; it never
falls back to a default nor returns a result. -/
theorem recommend_by_isbn_unknown_method_error (s : BookRecommendationSystem) (isbn : String)
    (n : Nat) (method : String) (h1 : method ≠ "popularity") (h2 : method ≠ "collaborative")
    (h3 : method ≠ "content") (h4 : method ≠ "hybrid") :
    s.recommendByIsbn isbn n method = Except.error ("Unknown method: " ++ method) := by
  unfold BookRecommendationSystem.recommendByIsbn
  rw [if_neg h1, if_neg h2, if_neg h3, if_neg h4]

/-- Witness for C6 with the unknown method string "magic". -/
theorem recommend_by_isbn_unknown_method_error_witness :
    sysEx.recommendByIsbn "X1" 5 "magic" = Except.error ("Unknown method: " ++ "magic") :=
  recommend_by_isbn_unknown_method_error sysEx "X1" 5 "magic"
    (by decide) (by decide) (by decide) (by decide)

/-- C9: a user with no rows in the filtered interaction log receives exactly
the default popularity ranking, `get_popular` at the default minimum-ratings
threshold 50, whatever the method. -/
theorem recommend_for_user_no_ratings_popular (s : BookRecommendationSystem) (userId : Int)
    (n : Nat) (method : String)
    (h : s.filteredRatings.filter (fun r => r.userId == userId) = []) :
    s.recommendForUser userId n method = some (Frame.pop (s.getPopularBooks n 50)) := by
  simp only [BookRecommendationSystem.recommendForUser, h, List.map_nil, List.isEmpty_nil,
    if_true, BookRecommendationSystem.getPopularBooks]

/-- Witness for C9: user 99 has no rows in the example filtered log. -/
theorem recommend_for_user_no_ratings_popular_witness :
    sysEx.recommendForUser 99 5 "hybrid" = some (Frame.pop (sysEx.getPopularBooks 5 50)) :=
  recommend_for_user_no_ratings_popular sysEx 99 5 "hybrid" (by decide)

/-- C10: constructing the content engine rewrites the shared catalog only by
populating the derived Content column — row count and every pre-existing
column are unchanged — and no recommend query mutates the system state. -/
theorem content_build_mutates_only_content_column :
    (∀ books : List BookRow,
      (ContentRecommender.buildModelCatalog books).length = books.length ∧
      (ContentRecommender.buildModelCatalog books).map BookRow.isbn = books.map BookRow.isbn ∧
      (ContentRecommender.buildModelCatalog books).map BookRow.title = books.map BookRow.title ∧
      (ContentRecommender.buildModelCatalog books).map BookRow.author
        = books.map BookRow.author ∧
      (ContentRecommender.buildModelCatalog books).map BookRow.publisher
        = books.map BookRow.publisher ∧
      (ContentRecommender.buildModelCatalog books).map BookRow.avgRating
        = books.map BookRow.avgRating ∧
      (ContentRecommender.buildModelCatalog books).map BookRow.content
        = books.map (fun b => some (contentDoc b))) ∧
    (∀ (s : BookRecommendationSystem) (n minRatings : Nat),
      (popularityQueryStep s n minRatings).1 = s) ∧
    (∀ (s : BookRecommendationSystem) (isbn : String) (n : Nat),
      (collaborativeQueryStep s isbn n).1 = s) ∧
    (∀ (s : BookRecommendationSystem) (isbn : String) (n : Nat),
      (contentQueryStep s isbn n).1 = s) ∧
    (∀ (s : BookRecommendationSystem) (isbn : String) (n : Nat) (wc wt : Rat),
      (hybridQueryStep s isbn n wc wt).1 = s) := by
  refine ⟨fun books => ?_, fun s n m => rfl, fun s i n => rfl, fun s i n => rfl,
    fun s i n wc wt => rfl⟩
  induction books with
  | nil => simp [ContentRecommender.buildModelCatalog]
  | cons b bs _ => simp [ContentRecommender.buildModelCatalog]

/-- Looking up a key in an association list built by mapping a key-preserving
function over a key list returns the value computed for that key. -/
theorem scoreOf_map_keyed (g : String → Rat) (l : List String) (i : String) (hi : i ∈ l) :
    scoreOf (l.map (fun j => (j, g j))) i = g i := by
  induction l with
  | nil => cases hi
  | cons a as ih =>
    by_cases hai : a = i
    · subst hai
      simp [scoreOf]
    · have hi2 : i ∈ as := by
        cases hi with
        | head => exact absurd rfl hai
        | tail _ h2 => exact h2
      have hne : ¬ (((a, g a) : String × Rat).1 == i) := by simpa using hai
      unfold scoreOf at ih ⊢
      have heq : List.find? (fun p : String × Rat => p.1 == i)
            ((a, g a) :: List.map (fun j => (j, g j)) as)
          = List.find? (fun p : String × Rat => p.1 == i) (List.map (fun j => (j, g j)) as) :=
        List.find?_cons_of_neg _ hne
      rw [List.map_cons, heq]
      exact ih hi2

/-- A candidate absent from an engine's dataframe looks up to score 0. -/
theorem lookupListed_eq_zero_of_absent (recs : List RecRow) (i : String)
    (h : recs.any (fun r => r.isbn == i) = false) : lookupListed recs i = 0 := by
  unfold lookupListed
  have hnone : recs.find? (fun r => r.isbn == i) = none := by
    rw [List.find?_eq_none]
    intro x hx hxi
    exact (List.any_eq_false.mp h) x hx hxi
  rw [hnone]

/-- The dict value computed for any candidate is exactly the weighted sum of
the two listed scores, each 0 when the candidate is absent from that list. -/
theorem hybridScoresList_value (collabRecs contentRecs : List RecRow) (wc wt : Rat)
    (i : String) (hi : i ∈ hybridCandidates collabRecs contentRecs) :
    scoreOf (hybridScoresList collabRecs contentRecs wc wt) i
      = wc * lookupListed collabRecs i + wt * lookupListed contentRecs i := by
  unfold hybridScoresList
  rw [scoreOf_map_keyed _ _ _ hi]
  cases h1 : collabRecs.any (fun r => r.isbn == i) <;>
    cases h2 : contentRecs.any (fun r => r.isbn == i)
  · simp [lookupListed_eq_zero_of_absent _ _ h1, lookupListed_eq_zero_of_absent _ _ h2]
  · simp [lookupListed_eq_zero_of_absent _ _ h1]
  · simp [lookupListed_eq_zero_of_absent _ _ h2]
  · simp

/-- C3: when both engines return non-empty candidate dataframes, the hybrid
score computed for any candidate of the union equals collab_weight times the
collaborative Similarity-Score listed for it (0 if absent) plus
content_weight times the content Similarity-Score listed for it (0 if
absent); and every row of the hybrid output carries exactly that weighted sum
for its own ISBN. -/
theorem hybrid_score_weighted_sum (h : HybridRecommender) (seed : String) (n : Nat)
    (wc wt : Rat) (collabRecs contentRecs : List RecRow)
    (hc : CollaborativeRecommender.recommend h.collabRecommender seed (n * 2) = some collabRecs)
    (ht : ContentRecommender.recommend h.contentRecommender seed (n * 2) = some contentRecs)
    (hne1 : collabRecs ≠ []) (hne2 : contentRecs ≠ []) :
    (∀ i ∈ hybridCandidates collabRecs contentRecs,
      scoreOf (hybridScoresList collabRecs contentRecs wc wt) i
        = wc * lookupListed collabRecs i + wt * lookupListed contentRecs i) ∧
    (∀ rows, h.recommend seed n wc wt = some rows →
      ∀ r ∈ rows, r.score
        = wc * lookupListed collabRecs r.isbn + wt * lookupListed contentRecs r.isbn) := by
  constructor
  · exact fun i hi => hybridScoresList_value collabRecs contentRecs wc wt i hi
  · intro rows hrows r hr
    simp only [HybridRecommender.recommend, hc, ht, Option.bind_eq_bind,
      Option.some_bind] at hrows
    rw [if_neg (by simp [hne1]), if_neg (by simp [hne2])] at hrows
    injection hrows with hrows2
    subst hrows2
    rw [mem_insertionSort_iff] at hr
    obtain ⟨b, hb, rfl⟩ := List.mem_map.mp hr
    show scoreOf (hybridScoresList collabRecs contentRecs wc wt) b.isbn = _
    have hpred := of_decide_eq_true (List.mem_filter.mp hb).2
    obtain ⟨q, hq, hq2⟩ := List.mem_map.mp hpred
    have hq3 : q ∈ hybridScoresList collabRecs contentRecs wc wt := by
      have hq4 := List.mem_of_mem_take hq
      rwa [mem_insertionSort_iff] at hq4
    have hbisbn : b.isbn ∈ hybridCandidates collabRecs contentRecs := by
      unfold hybridScoresList at hq3
      obtain ⟨i, hi, rfl⟩ := List.mem_map.mp hq3
      rw [← hq2]
      exact hi
    exact hybridScoresList_value collabRecs contentRecs wc wt b.isbn hbisbn

/-- Witness for C3 at the concrete hybrid instance whose engines return X4
(collaborative) and X3, X2 (content) for seed X1, evaluated at candidate
X3. -/
theorem hybrid_score_weighted_sum_witness :
    scoreOf (hybridScoresList
        [⟨"X4", some "T4", some "A4", 2, mkRat 6 10, some "P4"⟩]
        [⟨"X3", some "T3", some "A3", 3, mkRat 9 10, some "P3"⟩,
         ⟨"X2", some "T2", some "A2", 4, mkRat 8 10, some "P2"⟩]
        (mkRat 1 2) (mkRat 1 2)) "X3"
      = mkRat 1 2 * lookupListed
            [⟨"X4", some "T4", some "A4", 2, mkRat 6 10, some "P4"⟩] "X3"
        + mkRat 1 2 * lookupListed
            [⟨"X3", some "T3", some "A3", 3, mkRat 9 10, some "P3"⟩,
             ⟨"X2", some "T2", some "A2", 4, mkRat 8 10, some "P2"⟩] "X3" :=
  (hybrid_score_weighted_sum hybridBothEx "X1" 1 (mkRat 1 2) (mkRat 1 2)
      [⟨"X4", some "T4", some "A4", 2, mkRat 6 10, some "P4"⟩]
      [⟨"X3", some "T3", some "A3", 3, mkRat 9 10, some "P3"⟩,
       ⟨"X2", some "T2", some "A2", 4, mkRat 8 10, some "P2"⟩]
      (by decide) (by decide) (by decide) (by decide)).1 "X3" (by decide)

/-- C7: every popularity output is sorted so that each row's
(Average-Rating, Rating-Count) pair is lexicographically at least the next
row's; every included row has at least `min_ratings` ratings; and when no
catalog book meets `min_ratings` the result is the empty dataframe, not an
error. -/
theorem popularity_sorted_filtered_empty (p : PopularityRecommender) (n minRatings : Nat) :
    List.Chain' popRowGE (p.recommend n minRatings) ∧
    (∀ r ∈ p.recommend n minRatings, minRatings ≤ r.ratingCount) ∧
    ((∀ b ∈ p.booksWithRating, ratingCountFor p.bookRatingMerged b.isbn < minRatings) →
      p.recommend n minRatings = []) := by
  refine ⟨?_, ?_, ?_⟩
  · show List.Chain' popRowGE (p.recommend n minRatings)
    simp only [PopularityRecommender.recommend]
    have hs := List.sorted_insertionSort popBefore
      ((p.booksWithRating.filterMap (fun b =>
        if ratingCountFor p.bookRatingMerged b.isbn = 0 then none
        else some (b, ratingCountFor p.bookRatingMerged b.isbn))).filter
          (fun bc => decide (minRatings ≤ bc.2)))
    have hmap : List.Pairwise popRowGE ((List.insertionSort popBefore
        ((p.booksWithRating.filterMap (fun b =>
          if ratingCountFor p.bookRatingMerged b.isbn = 0 then none
          else some (b, ratingCountFor p.bookRatingMerged b.isbn))).filter
            (fun bc => decide (minRatings ≤ bc.2)))).map (fun bc =>
        PopRow.mk bc.1.isbn bc.1.title bc.1.author bc.1.avgRating bc.2 bc.1.publisher)) := by
      rw [List.pairwise_map]
      exact hs.imp (fun hab => hab)
    exact ((hmap.sublist (List.take_sublist n _)).chain')
  · intro r hr
    simp only [PopularityRecommender.recommend] at hr
    have hr2 := List.mem_of_mem_take hr
    obtain ⟨bc, hbc, rfl⟩ := List.mem_map.mp hr2
    rw [mem_insertionSort_iff] at hbc
    exact of_decide_eq_true (List.mem_filter.mp hbc).2
  · intro hall
    rw [List.eq_nil_iff_forall_not_mem]
    intro r hr
    simp only [PopularityRecommender.recommend] at hr
    have hr2 := List.mem_of_mem_take hr
    obtain ⟨bc, hbc, hbceq⟩ := List.mem_map.mp hr2
    rw [mem_insertionSort_iff] at hbc
    have hge := of_decide_eq_true (List.mem_filter.mp hbc).2
    obtain ⟨b, hb, hsome⟩ := List.mem_filterMap.mp (List.mem_filter.mp hbc).1
    by_cases hc : ratingCountFor p.bookRatingMerged b.isbn = 0
    · rw [if_pos hc] at hsome
      cases hsome
    · rw [if_neg hc] at hsome
      injection hsome with h2
      subst h2
      exact absurd hge (by simpa using Nat.not_le_of_lt (hall b hb))

/-- Witness for C7: in the example no book reaches 10 ratings, so the
popularity recommendation is empty. -/
theorem popularity_sorted_filtered_empty_witness :
    popEx.recommend 5 10 = [] :=
  (popularity_sorted_filtered_empty popEx 5 10).2.2 (by decide)

/-- Filtering a duplicate-free list to the members of a duplicate-free subset
keeps exactly as many elements as the subset has. -/
theorem length_filter_mem (l T : List String) (hl : l.Nodup) (hT : T.Nodup)
    (hsub : ∀ t ∈ T, t ∈ l) :
    (l.filter (fun x => decide (x ∈ T))).length = T.length := by
  have h1 : List.Subperm (l.filter (fun x => decide (x ∈ T))) T := by
    apply List.subperm_of_subset (hl.filter _)
    intro x hx
    exact of_decide_eq_true (List.mem_filter.mp hx).2
  have h2 : List.Subperm T (l.filter (fun x => decide (x ∈ T))) := by
    apply List.subperm_of_subset hT
    intro t ht
    exact List.mem_filter.mpr ⟨hsub t ht, decide_eq_true ht⟩
  exact (h1.antisymm h2).length_eq

/-- The dataframe returned by a similarity engine never has more than `n`
rows. -/
theorem simRecommend_length_le (e : SimilarityRecommender) (seed : String) (n : Nat)
    (rows : List RecRow) (h : SimilarityRecommender.recommend e seed n = some rows) :
    rows.length ≤ n := by
  simp only [SimilarityRecommender.recommend] at h
  split at h
  · injection h with h2
    subst h2
    exact Nat.zero_le n
  · split at h
    · injection h with h2
      subst h2
      rw [(List.perm_insertionSort _ _).length_eq, List.length_map, List.length_zip,
        List.length_map]
      calc min _ _ ≤ _ := Nat.min_le_right _ _
        _ ≤ n := by
          rw [List.length_take]
          exact Nat.min_le_left _ _
    · cases h

/-- Under the catalog preconditions, a similarity engine whose index holds at
least `n` candidates besides the seed returns a dataframe of exactly `n`
rows (and raises nothing). -/
theorem simRecommend_length_eq (e : SimilarityRecommender) (seed : String) (n : Nat)
    (hcat : (e.booksWithRating.map BookRow.isbn).Nodup)
    (hidx : e.simIndex.Nodup) (hseed : seed ∈ e.simIndex)
    (hsub : ∀ j ∈ e.simIndex, j ∈ e.booksWithRating.map BookRow.isbn)
    (hn : n ≤ (e.simIndex.filter (fun j => j != seed)).length) :
    ∃ rows, SimilarityRecommender.recommend e seed n = some rows ∧ rows.length = n := by
  have hpairfil : ((e.simIndex.map (fun j => (j, e.sim j seed))).filter (fun p => p.1 != seed))
      = (e.simIndex.filter (fun j => j != seed)).map (fun j => (j, e.sim j seed)) := by
    rw [List.filter_map]
    rfl
  have hSB := (List.perm_insertionSort (fun (a b : String × Rat) => b.2 ≤ a.2)
    (e.simIndex.map (fun j => (j, e.sim j seed)))).filter (fun p => p.1 != seed)
  rw [hpairfil] at hSB
  have hSBlen : (((e.simIndex.map (fun j => (j, e.sim j seed))).insertionSort
        (fun a b => b.2 ≤ a.2)).filter (fun p => p.1 != seed)).length
      = (e.simIndex.filter (fun j => j != seed)).length := by
    rw [hSB.length_eq, List.length_map]
  have hTSlen : ((((e.simIndex.map (fun j => (j, e.sim j seed))).insertionSort
        (fun a b => b.2 ≤ a.2)).filter (fun p => p.1 != seed)).take n).length = n := by
    rw [List.length_take, hSBlen]
    exact Nat.min_eq_left hn
  have hfst : List.Perm ((((e.simIndex.map (fun j => (j, e.sim j seed))).insertionSort
        (fun a b => b.2 ≤ a.2)).filter (fun p => p.1 != seed)).map Prod.fst)
      (e.simIndex.filter (fun j => j != seed)) := by
    have h1 := hSB.map Prod.fst
    rw [List.map_map] at h1
    have h2 : (e.simIndex.filter (fun j => j != seed)).map
        (Prod.fst ∘ fun j => ((j, e.sim j seed) : String × Rat))
        = (e.simIndex.filter (fun j => j != seed)).map (fun j => j) := rfl
    rw [h2, List.map_id'] at h1
    exact h1
  have hTInodup : (((((e.simIndex.map (fun j => (j, e.sim j seed))).insertionSort
        (fun a b => b.2 ≤ a.2)).filter (fun p => p.1 != seed)).take n).map Prod.fst).Nodup := by
    rw [List.map_take]
    exact List.Nodup.sublist (List.take_sublist n _) (hfst.symm.nodup (hidx.filter _))
  have hTIsub : ∀ t ∈ ((((e.simIndex.map (fun j => (j, e.sim j seed))).insertionSort
        (fun a b => b.2 ≤ a.2)).filter (fun p => p.1 != seed)).take n).map Prod.fst,
      t ∈ e.booksWithRating.map BookRow.isbn := by
    intro t ht
    rw [List.map_take] at ht
    have ht2 := List.mem_of_mem_take ht
    have ht3 := hfst.mem_iff.mp ht2
    exact hsub t (List.mem_of_mem_filter ht3)
  have hcount := length_filter_mem (e.booksWithRating.map BookRow.isbn)
    (((((e.simIndex.map (fun j => (j, e.sim j seed))).insertionSort
      (fun a b => b.2 ≤ a.2)).filter (fun p => p.1 != seed)).take n).map Prod.fst)
    hcat hTInodup hTIsub
  have hcomp : (e.booksWithRating.map BookRow.isbn).filter (fun x =>
        decide (x ∈ ((((e.simIndex.map (fun j => (j, e.sim j seed))).insertionSort
          (fun a b => b.2 ≤ a.2)).filter (fun p => p.1 != seed)).take n).map Prod.fst))
      = (e.booksWithRating.filter (fun b =>
          decide (b.isbn ∈ ((((e.simIndex.map (fun j => (j, e.sim j seed))).insertionSort
            (fun a b => b.2 ≤ a.2)).filter (fun p => p.1 != seed)).take n).map
              Prod.fst))).map BookRow.isbn := by
    rw [List.filter_map]
    rfl
  rw [hcomp, List.length_map] at hcount
  have hreclen : (e.booksWithRating.filter (fun b =>
        decide (b.isbn ∈ ((((e.simIndex.map (fun j => (j, e.sim j seed))).insertionSort
          (fun a b => b.2 ≤ a.2)).filter (fun p => p.1 != seed)).take n).map
            Prod.fst))).length = n := by
    rw [hcount, List.length_map, hTSlen]
  have hcond : (e.booksWithRating.filter (fun b =>
        decide (b.isbn ∈ ((((e.simIndex.map (fun j => (j, e.sim j seed))).insertionSort
          (fun a b => b.2 ≤ a.2)).filter (fun p => p.1 != seed)).take n).map
            Prod.fst))).length
      = (((((e.simIndex.map (fun j => (j, e.sim j seed))).insertionSort
          (fun a b => b.2 ≤ a.2)).filter (fun p => p.1 != seed)).take n).map Prod.snd).length := by
    rw [hreclen, List.length_map, hTSlen]
  simp only [SimilarityRecommender.recommend]
  rw [if_neg (not_not_intro hseed), if_pos hcond]
  refine ⟨_, rfl, ?_⟩
  rw [(List.perm_insertionSort _ _).length_eq, List.length_map, List.length_zip,
    hreclen, List.length_map, hTSlen]
  exact Nat.min_self n

/-- C8: for a seed in an engine's index, the returned dataframe never exceeds
`n` rows, and under the stated preconditions (catalog with one row per ISBN,
duplicate-free index contained in the catalog) it has exactly `n` rows
whenever the index holds at least `n` candidates besides the seed — for both
the collaborative and the content engine. -/
theorem recommend_length_bound (e : SimilarityRecommender) (seed : String) (n : Nat) :
    (∀ rows, CollaborativeRecommender.recommend e seed n = some rows → rows.length ≤ n) ∧
    (∀ rows, ContentRecommender.recommend e seed n = some rows → rows.length ≤ n) ∧
    ((e.booksWithRating.map BookRow.isbn).Nodup → e.simIndex.Nodup → seed ∈ e.simIndex →
      (∀ j ∈ e.simIndex, j ∈ e.booksWithRating.map BookRow.isbn) →
      n ≤ (e.simIndex.filter (fun j => j != seed)).length →
      (∃ rows, CollaborativeRecommender.recommend e seed n = some rows ∧ rows.length = n) ∧
      (∃ rows, ContentRecommender.recommend e seed n = some rows ∧ rows.length = n)) :=
  ⟨fun rows h => simRecommend_length_le e seed n rows h,
   fun rows h => simRecommend_length_le e seed n rows h,
   fun hcat hidx hseed hsub hn =>
    ⟨simRecommend_length_eq e seed n hcat hidx hseed hsub hn,
     simRecommend_length_eq e seed n hcat hidx hseed hsub hn⟩⟩

/-- Witness for C8 at the concrete engine: with seed X1 and n = 1 the
returned dataframe has exactly one row, and the returned two-candidate
dataframe for n = 2 has at most two rows. -/
theorem recommend_length_bound_witness :
    ([(⟨"X3", some "T3", some "A3", 3, mkRat 9 10, some "P3"⟩ : RecRow),
      ⟨"X2", some "T2", some "A2", 4, mkRat 8 10, some "P2"⟩].length ≤ 2) ∧
    (CollaborativeRecommender.recommend engineEx "X1" 1
        = some [⟨"X2", some "T2", some "A2", 4, mkRat 9 10, some "P2"⟩] ∧
      ([(⟨"X2", some "T2", some "A2", 4, mkRat 9 10, some "P2"⟩ : RecRow)]).length = 1) := by
  constructor
  · exact (recommend_length_bound engineEx "X1" 2).1
      [⟨"X3", some "T3", some "A3", 3, mkRat 9 10, some "P3"⟩,
       ⟨"X2", some "T2", some "A2", 4, mkRat 8 10, some "P2"⟩] (by decide)
  · obtain ⟨⟨rows, hrows, hlen⟩, h2⟩ := (recommend_length_bound engineEx "X1" 1).2.2
      (by decide) (by decide) (by decide) (by decide) (by decide)
    have hr2 : rows = [⟨"X2", some "T2", some "A2", 4, mkRat 9 10, some "P2"⟩] := by
      have hcalc : CollaborativeRecommender.recommend engineEx "X1" 1
          = some [⟨"X2", some "T2", some "A2", 4, mkRat 9 10, some "P2"⟩] := by decide
      rw [hcalc] at hrows
      exact (Option.some.inj hrows).symm
    subst hr2
    exact ⟨hrows, hlen⟩
